import Mathlib

/-!
Verification of the darts core surfaced in this repository: the CatBoost
forecasting model (src/darts/models/forecasting/catboost_model.py) and the
Poisson negative-log-likelihood anomaly scorer
(src/darts/ad/scorers/nll_poisson_scorer.py), shallowly embedded in Lean.

Floating-point arrays are modelled as lists of reals; python dicts as
association lists with overwrite-or-append assignment; raised exceptions as
Except values.
-/

namespace DartsSpec

/-! ### Poisson NLL scorer (src/darts/ad/scorers/nll_poisson_scorer.py) -/

/-- Arithmetic mean of a list of reals, as numpy's np.mean computes it:
the sum divided by the number of entries. -/
noncomputable def npMean (xs : List ℝ) : ℝ := xs.sum / xs.length

/-- scipy.special.xlogy: x * log y with the convention that the result is 0
when x = 0 (regardless of y). -/
noncomputable def xlogy (x y : ℝ) : ℝ := if x = 0 then 0 else x * Real.log y

/-- scipy.stats.poisson.logpmf k mu = xlogy(k, mu) - gammaln(k+1) - mu, with
scipy's discrete-distribution support masking: a value k outside the support
(negative or non-integer) yields log-pmf -infinity, the rate mu = 0 yields
pmf 1 at k = 0 and pmf 0 (log-pmf -infinity) at k > 0.  For mu < 0 scipy
propagates NaN, which has no EReal counterpart; no code path of the scorer
exercised by the spec feeds a negative rate, so that case is left at the
junk value the formula gives. -/
noncomputable def poisson_logpmf (k : ℝ) (mu : ℝ) : EReal :=
  if 0 ≤ k ∧ Int.fract k = 0 then
    if mu = 0 ∧ 0 < k then ⊥
    else ((xlogy k mu - Real.log (Nat.factorial (Int.toNat ⌊k⌋)) - mu : ℝ) : EReal)
  else ⊥

/-- PoissonNLLScorer._score_core_nllikelihood (lines 36-40): mu is the mean
over the sample axis (axis 1) of pred_vals, and the returned score is
-poisson.logpmf(vals, mu), elementwise.  Each row of pred_vals holds the
stochastic samples belonging to one entry of vals. -/
noncomputable def score_core_nllikelihood (vals : List ℝ) (pred_vals : List (List ℝ)) :
    List EReal :=
  List.zipWith (fun v row => -(poisson_logpmf v (npMean row))) vals pred_vals

theorem npMean_replicate (n : ℕ) (hn : 0 < n) (x : ℝ) :
    npMean (List.replicate n x) = x := by
  have hn' : (n : ℝ) ≠ 0 := Nat.cast_ne_zero.mpr (Nat.pos_iff_ne_zero.mp hn)
  simp [npMean, List.sum_replicate, nsmul_eq_mul]
  field_simp

theorem poisson_logpmf_nat (n : ℕ) (mu : ℝ) (hmu : 0 < mu) :
    poisson_logpmf (n : ℝ) mu =
      (((n : ℝ) * Real.log mu - Real.log (Nat.factorial n) - mu : ℝ) : EReal) := by
  have hfr : Int.fract ((n : ℝ)) = 0 := by simp
  have hfl : Int.toNat ⌊(n : ℝ)⌋ = n := by
    rw [Int.floor_natCast]
    exact Int.toNat_natCast n
  have hx : xlogy (n : ℝ) mu = (n : ℝ) * Real.log mu := by
    by_cases h : (n : ℝ) = 0
    · simp [xlogy, h]
    · simp [xlogy, h]
  rw [poisson_logpmf, if_pos ⟨Nat.cast_nonneg n, hfr⟩, if_neg]
  · rw [hx, hfl]
  · rintro ⟨hmu0, _⟩
    exact absurd hmu0 (ne_of_gt hmu)

theorem zipWith_getElem? {α β γ : Type} (f : α → β → γ) :
    ∀ (l₁ : List α) (l₂ : List β) (i : ℕ) (a : α) (b : β),
      l₁[i]? = some a → l₂[i]? = some b → (List.zipWith f l₁ l₂)[i]? = some (f a b)
  | [], _, _, _, _, h₁, _ => by simp at h₁
  | _ :: _, [], _, _, _, _, h₂ => by simp at h₂
  | x :: l₁, y :: l₂, 0, a, b, h₁, h₂ => by
    simp at h₁ h₂
    simp [List.zipWith, h₁, h₂]
  | x :: l₁, y :: l₂, i + 1, a, b, h₁, h₂ => by
    simp only [List.getElem?_cons_succ] at h₁ h₂
    simpa using zipWith_getElem? f l₁ l₂ i a b h₁ h₂

/-- C1: for every window position (row of the core's inputs) and component, the
Poisson NLL scorer's core scores the true value as the negative Poisson
log-pmf with rate fitted as the mean over the sample axis; in particular for
samples all equal to 5 and true value 5 the score is -logpmf(5, mu = 5). -/
theorem score_core_elementwise (vals : List ℝ) (preds : List (List ℝ)) (i : ℕ)
    (v : ℝ) (row : List ℝ) (hv : vals[i]? = some v) (hp : preds[i]? = some row)
    (n : ℕ) (hn : 0 < n) :
    (score_core_nllikelihood vals preds)[i]? = some (-(poisson_logpmf v (npMean row)))
      ∧ score_core_nllikelihood [5] [List.replicate n 5] = [-(poisson_logpmf 5 5)] := by
  constructor
  · exact zipWith_getElem? _ vals preds i v row hv hp
  · simp [score_core_nllikelihood, npMean_replicate n hn]

theorem score_core_elementwise_witness :
    (score_core_nllikelihood [5] [[5, 5, 5]])[0]? =
        some (-(poisson_logpmf 5 (npMean [5, 5, 5])))
      ∧ score_core_nllikelihood [5] [List.replicate 3 5] = [-(poisson_logpmf 5 5)] :=
  score_core_elementwise [5] [[5, 5, 5]] 0 5 [5, 5, 5] rfl rfl 3 (by norm_num)

/-- C5: when the fitted rate (mean of the samples) is exactly 0 and the true
value is 0 as well, the scorer's core returns the finite maximal-likelihood
score 0; when the true value is outside the Poisson support (negative), the
returned score is +infinity, as a value, not an exception. -/
theorem score_core_edge_cases (samples : List ℝ) (k : ℝ) :
    (npMean samples = 0 → score_core_nllikelihood [0] [samples] = [(0 : EReal)])
      ∧ (k < 0 → score_core_nllikelihood [k] [samples] = [(⊤ : EReal)]) := by
  constructor
  · intro h
    have h0 : poisson_logpmf 0 0 = ((0 : ℝ) : EReal) := by
      rw [poisson_logpmf, if_pos ⟨le_refl 0, by simp⟩, if_neg (by simp)]
      norm_num [xlogy]
    simp [score_core_nllikelihood, h, h0]
  · intro h
    have hb : poisson_logpmf k (npMean samples) = ⊥ := by
      rw [poisson_logpmf, if_neg]
      rintro ⟨h0, _⟩
      exact absurd h (not_lt.mpr h0)
    simp [score_core_nllikelihood, hb]

theorem score_core_edge_cases_witness :
    score_core_nllikelihood [0] [[0, 0, 0]] = [(0 : EReal)]
      ∧ score_core_nllikelihood [-1] [[0, 0, 0]] = [(⊤ : EReal)] :=
  ⟨(score_core_edge_cases [0, 0, 0] (-1)).1 (by norm_num [npMean]),
   (score_core_edge_cases [0, 0, 0] (-1)).2 (by norm_num)⟩

/-- C7: in the Poisson NLL scorer's core, the true value 6 scored against a
fitted rate of 5 (samples all 5) gets a strictly higher (less likely) score
than against a fitted rate of 6 (samples all 6). -/
theorem score_rate_five_vs_six :
    score_core_nllikelihood [6] [[5, 5, 5]] = [-(poisson_logpmf 6 5)]
      ∧ score_core_nllikelihood [6] [[6, 6, 6]] = [-(poisson_logpmf 6 6)]
      ∧ -(poisson_logpmf 6 6) < -(poisson_logpmf 6 5) := by
  have hm5 : npMean [5, 5, 5] = 5 := by norm_num [npMean]
  have hm6 : npMean [6, 6, 6] = 6 := by norm_num [npMean]
  have h5 : poisson_logpmf 6 5 =
      ((6 * Real.log 5 - Real.log 720 - 5 : ℝ) : EReal) := by
    have h := poisson_logpmf_nat 6 5 (by norm_num)
    norm_num [Nat.factorial] at h
    exact h
  have h6 : poisson_logpmf 6 6 =
      ((6 * Real.log 6 - Real.log 720 - 6 : ℝ) : EReal) := by
    have h := poisson_logpmf_nat 6 6 (by norm_num)
    norm_num [Nat.factorial] at h
    exact h
  have hlog : Real.log (5 / 6) < 5 / 6 - 1 :=
    Real.log_lt_sub_one_of_pos (by norm_num) (by norm_num)
  have hdiv : Real.log (5 / 6) = Real.log 5 - Real.log 6 :=
    Real.log_div (by norm_num) (by norm_num)
  have hreal : -(6 * Real.log 6 - Real.log 720 - 6) < -(6 * Real.log 5 - Real.log 720 - 5) := by
    rw [hdiv] at hlog
    linarith
  refine ⟨by simp [score_core_nllikelihood, hm5], by simp [score_core_nllikelihood, hm6], ?_⟩
  rw [h5, h6, ← EReal.coe_neg, ← EReal.coe_neg, EReal.coe_lt_coe_iff]
  exact hreal

/-! ### Python-dict model -/

/-- Lookup in a python-dict-like association list (first entry with the key). -/
def dictLookup {α β : Type} [DecidableEq α] (k : α) : List (α × β) → Option β
  | [] => none
  | p :: rest => if p.1 = k then some p.2 else dictLookup k rest

/-- Python dict assignment d[k] = v: overwrite the entry in place when the key
is present, append a new entry otherwise. -/
def dictInsert {α β : Type} [DecidableEq α] (k : α) (v : β) : List (α × β) → List (α × β)
  | [] => [(k, v)]
  | p :: rest => if p.1 = k then (k, v) :: rest else p :: dictInsert k v rest

theorem dictLookup_dictInsert_self {α β : Type} [DecidableEq α] (k : α) (v : β)
    (d : List (α × β)) : dictLookup k (dictInsert k v d) = some v := by
  induction d with
  | nil => simp [dictInsert, dictLookup]
  | cons p rest ih =>
    by_cases h : p.1 = k
    · simp [dictInsert, dictLookup, h]
    · simp [dictInsert, dictLookup, h, ih]

theorem dictLookup_dictInsert_ne {α β : Type} [DecidableEq α] (k k' : α) (v : β)
    (d : List (α × β)) (hne : k ≠ k') :
    dictLookup k' (dictInsert k v d) = dictLookup k' d := by
  induction d with
  | nil => simp [dictInsert, dictLookup, hne]
  | cons p rest ih =>
    obtain ⟨a, b⟩ := p
    by_cases h : a = k
    · subst h
      simp [dictInsert, dictLookup, hne]
    · simp [dictInsert, dictLookup, h, ih]

theorem dictLookup_append {α β : Type} [DecidableEq α] (k : α) (d₁ d₂ : List (α × β)) :
    dictLookup k (d₁ ++ d₂) =
      match dictLookup k d₁ with
      | some v => some v
      | none => dictLookup k d₂ := by
  induction d₁ with
  | nil => simp [dictLookup]
  | cons p rest ih =>
    by_cases h : p.1 = k
    · simp [dictLookup, h]
    · simp [dictLookup, h, ih]

theorem dictInsert_of_lookup_none {α β : Type} [DecidableEq α] (k : α) (v : β)
    (d : List (α × β)) (h : dictLookup k d = none) :
    dictInsert k v d = d ++ [(k, v)] := by
  induction d with
  | nil => simp [dictInsert]
  | cons p rest ih =>
    by_cases hp : p.1 = k
    · simp [dictLookup, hp] at h
    · simp [dictLookup, hp] at h
      simp [dictInsert, hp, ih h]

/-! ### CatBoost model construction (src/darts/models/forecasting/catboost_model.py) -/

/-- Values stored in the keyword-argument bag forwarded to CatBoostRegressor. -/
inductive KwVal
  | bool (b : Bool)
  | optNat (n : Option Nat)
  | str (s : String)
deriving DecidableEq

/-- likelihood_map from CatBoostModel.__init__ (lines 146-151): maps each
accepted likelihood tag to the CatBoost loss function it selects (none for
quantile mode, whose loss is set per quantile at fit time). -/
def likelihood_map : List (String × Option String) :=
  [("quantile", none), ("poisson", some "Poisson"),
   ("gaussian", some "RMSEWithUncertainty"),
   ("RMSEWithUncertainty", some "RMSEWithUncertainty")]

/-- available_likelihoods = list(likelihood_map.keys()) (line 153). -/
def available_likelihoods : List String := likelihood_map.map Prod.fst

/-- Modelled from the spec: _LikelihoodMixin._check_likelihood
(regression_model.py, not under src/) validates the likelihood tag eagerly at
construction, failing unless the tag is one of the available ones. -/
def check_likelihood (lik : String) : Bool := decide (lik ∈ available_likelihoods)

/-- Modelled from the spec: _LikelihoodMixin._prepare_quantiles
(regression_model.py, not under src/): a supplied quantile list is malformed
unless it is nonempty, strictly increasing and every level lies inside (0,1);
a malformed list makes construction fail; when no list is supplied a valid
default list is used.  Returns the validated (unique, sorted) levels. -/
def prepare_quantiles : Option (List ℚ) → Option (List ℚ)
  | none => some [mkRat 1 20, mkRat 1 10, mkRat 1 4, mkRat 1 2, mkRat 3 4, mkRat 9 10, mkRat 19 20]
  | some qs =>
      if qs ≠ [] ∧ List.Chain' (· < ·) qs ∧ ∀ q ∈ qs, 0 < q ∧ q < 1 then some qs
      else none

/-- The constructor-visible state of a CatBoostModel as set up by __init__:
kwargs is the configuration bag forwarded to CatBoostRegressor(**kwargs) on
line 177, rng is self._rng (none when never created, otherwise the generator
seeded with random_state), has_model_container records whether
self._model_container was populated (quantile mode). -/
structure CatBoostState where
  kwargs : List (String × KwVal)
  likelihood : Option String
  quantiles : List ℚ
  rng : Option (Option Nat)
  has_model_container : Bool
  lags_target : Option (List Int)
  output_chunk_length : Int
deriving DecidableEq

inductive InitError
  | invalidLikelihood
  | invalidQuantiles
deriving DecidableEq

/-- Lines 166-168 of CatBoostModel.__init__: when the user did not pass
allow_writing_files, default it to False in the kwargs forwarded to the
regressor. -/
def default_allow_writing_files (kwargs : List (String × KwVal)) : List (String × KwVal) :=
  if dictLookup "allow_writing_files" kwargs = none then
    dictInsert "allow_writing_files" (KwVal.bool false) kwargs
  else kwargs

/-- CatBoostModel.__init__ (lines 136-179): random_state is written into the
kwargs, the likelihood tag is validated when supplied (creating the sampling
rng and, for quantile mode, the validated quantiles and the model container;
for the parametric likelihoods, the loss_function entry), and
allow_writing_files is defaulted to False unless the caller passed it. -/
def catboost_init (lags_target : Option (List Int)) (output_chunk_length : Int)
    (likelihood : Option String) (quantiles : Option (List ℚ))
    (random_state : Option Nat) (user_kwargs : List (String × KwVal)) :
    Except InitError CatBoostState :=
  let kwargs0 := dictInsert "random_state" (KwVal.optNat random_state) user_kwargs
  match likelihood with
  | none =>
      Except.ok
        { kwargs := default_allow_writing_files kwargs0
          likelihood := none
          quantiles := []
          rng := none
          has_model_container := false
          lags_target := lags_target
          output_chunk_length := output_chunk_length }
  | some lik =>
      if check_likelihood lik then
        if lik = "quantile" then
          match prepare_quantiles quantiles with
          | none => Except.error InitError.invalidQuantiles
          | some qs =>
              Except.ok
                { kwargs := default_allow_writing_files kwargs0
                  likelihood := some lik
                  quantiles := qs
                  rng := some random_state
                  has_model_container := true
                  lags_target := lags_target
                  output_chunk_length := output_chunk_length }
        else
          Except.ok
            { kwargs := default_allow_writing_files
                (dictInsert "loss_function"
                  (KwVal.str (((dictLookup lik likelihood_map).getD none).getD ""))
                  kwargs0)
              likelihood := some lik
              quantiles := []
              rng := some random_state
              has_model_container := false
              lags_target := lags_target
              output_chunk_length := output_chunk_length }
      else Except.error InitError.invalidLikelihood

/-- CatBoostModel._is_probabilistic (lines 300-302). -/
def is_probabilistic (s : CatBoostState) : Bool := s.likelihood.isSome

/-- CatBoostModel.min_train_series_length (lines 304-313): lags_target models
self.lags["target"] when present (the sorted list of target lags, so its
first element, headI, is self.lags["target"][0]). -/
def min_train_series_length (lags_target : Option (List Int)) (output_chunk_length : Int) : Int :=
  match lags_target with
  | some l => max 3 (-(l.headI) + output_chunk_length + 1)
  | none => max 3 output_chunk_length

/-- C3: with target lags configured (a sorted lag list whose minimum, i.e.
most negative lag, is m), the minimum trainable series length is
max(3, -m + output_chunk_length + 1); with no target lags it is
max(3, output_chunk_length). -/
theorem min_train_series_length_rule (l : List Int) (m : Int) (ocl : Int)
    (hm : m ∈ l) (hmin : ∀ x ∈ l, m ≤ x) (hsorted : List.Sorted (· ≤ ·) l) :
    min_train_series_length (some l) ocl = max 3 (-m + ocl + 1)
      ∧ min_train_series_length none ocl = max 3 ocl := by
  have hhead : l.headI = m := by
    cases l with
    | nil => cases hm
    | cons a t =>
      have h1 : m ≤ a := hmin a (List.mem_cons_self a t)
      have h2 : a ≤ m := by
        rcases List.mem_cons.mp hm with h | h
        · exact le_of_eq h.symm
        · exact (List.sorted_cons.mp hsorted).1 m h
      exact le_antisymm h2 h1
  exact ⟨by simp [min_train_series_length, hhead], rfl⟩

theorem min_train_series_length_rule_witness :
    min_train_series_length (some [-2, -1]) 1 = max 3 (-(-2) + 1 + 1)
      ∧ min_train_series_length none 1 = max 3 1 :=
  min_train_series_length_rule [-2, -1] (-2) 1 (by decide) (by decide) (by decide)

/-- C9: whenever construction succeeds, the model reports itself probabilistic
exactly when a likelihood tag was supplied, and the sampling rng exists
exactly when a likelihood tag was supplied. -/
theorem probabilistic_iff_likelihood (lt : Option (List Int)) (ocl : Int)
    (lik : Option String) (qs : Option (List ℚ)) (rs : Option Nat)
    (kw : List (String × KwVal)) (s : CatBoostState)
    (h : catboost_init lt ocl lik qs rs kw = Except.ok s) :
    is_probabilistic s = lik.isSome ∧ s.rng.isSome = lik.isSome := by
  cases lik with
  | none =>
    rw [catboost_init, Except.ok.injEq] at h
    subst h
    simp [is_probabilistic]
  | some l =>
    rw [catboost_init] at h
    split at h
    · split at h
      · split at h
        · exact absurd h (by simp)
        · rw [Except.ok.injEq] at h
          subst h
          simp [is_probabilistic]
      · rw [Except.ok.injEq] at h
        subst h
        simp [is_probabilistic]
    · exact absurd h (by simp)

theorem probabilistic_iff_likelihood_witness :
    is_probabilistic
        { kwargs := [("random_state", KwVal.optNat none),
            ("loss_function", KwVal.str "Poisson"),
            ("allow_writing_files", KwVal.bool false)]
          likelihood := some "poisson"
          quantiles := []
          rng := some none
          has_model_container := false
          lags_target := none
          output_chunk_length := 1 } = (some "poisson" : Option String).isSome
      ∧ (CatBoostState.rng
          { kwargs := [("random_state", KwVal.optNat none),
              ("loss_function", KwVal.str "Poisson"),
              ("allow_writing_files", KwVal.bool false)]
            likelihood := some "poisson"
            quantiles := []
            rng := some none
            has_model_container := false
            lags_target := none
            output_chunk_length := 1 }).isSome = (some "poisson" : Option String).isSome :=
  probabilistic_iff_likelihood none 1 (some "poisson") none none [] _ rfl

/-- C10: whenever the caller does not pass allow_writing_files among the
keyword arguments, the configuration bag forwarded to the underlying
regressor has allow_writing_files set to False. -/
theorem allow_writing_files_default (lt : Option (List Int)) (ocl : Int)
    (lik : Option String) (qs : Option (List ℚ)) (rs : Option Nat)
    (kw : List (String × KwVal)) (s : CatBoostState)
    (h : catboost_init lt ocl lik qs rs kw = Except.ok s)
    (huser : dictLookup "allow_writing_files" kw = none) :
    dictLookup "allow_writing_files" s.kwargs = some (KwVal.bool false) := by
  have key : ∀ d : List (String × KwVal), dictLookup "allow_writing_files" d = none →
      dictLookup "allow_writing_files" (default_allow_writing_files d) =
        some (KwVal.bool false) := by
    intro d hd
    rw [default_allow_writing_files, if_pos hd]
    exact dictLookup_dictInsert_self _ _ _
  have h0 : dictLookup "allow_writing_files"
      (dictInsert "random_state" (KwVal.optNat rs) kw) = none := by
    rw [dictLookup_dictInsert_ne _ _ _ _ (by decide)]
    exact huser
  cases lik with
  | none =>
    rw [catboost_init, Except.ok.injEq] at h
    subst h
    exact key _ h0
  | some l =>
    rw [catboost_init] at h
    split at h
    · split at h
      · split at h
        · exact absurd h (by simp)
        · rw [Except.ok.injEq] at h
          subst h
          exact key _ h0
      · rw [Except.ok.injEq] at h
        subst h
        refine key _ ?_
        rw [dictLookup_dictInsert_ne _ _ _ _ (by decide)]
        exact h0
    · exact absurd h (by simp)

theorem allow_writing_files_default_witness :
    dictLookup "allow_writing_files"
        (CatBoostState.kwargs
          { kwargs := [("random_state", KwVal.optNat none),
              ("allow_writing_files", KwVal.bool false)]
            likelihood := none
            quantiles := []
            rng := none
            has_model_container := false
            lags_target := none
            output_chunk_length := 1 }) = some (KwVal.bool false) :=
  allow_writing_files_default none 1 none none none [] _ rfl rfl

/-- C6 (counterexample): the likelihood tag "RMSEWithUncertainty", which is not
among {quantile, poisson, gaussian}, is nevertheless accepted at
construction, refuting the claim that every tag outside
{none, quantile, poisson, gaussian} is rejected. -/
theorem rmse_uncertainty_tag_accepted :
    (catboost_init none 1 (some "RMSEWithUncertainty") none none []).toOption.isSome = true
      ∧ "RMSEWithUncertainty" ∉ (["quantile", "poisson", "gaussian"] : List String) :=
  ⟨rfl, by decide⟩

/-- C6 (amended): the likelihood tags accepted at construction are exactly
none and the four strings quantile, poisson, gaussian, RMSEWithUncertainty
(the keys of likelihood_map); any other tag is rejected at construction time
with an invalid-likelihood error, before any fit or predict. -/
theorem likelihood_tags_validated (lik : String) :
    (lik ∈ available_likelihoods →
      (catboost_init none 1 (some lik) (some [mkRat 1 2]) none []).toOption.isSome = true)
      ∧ (lik ∉ available_likelihoods →
        catboost_init none 1 (some lik) (some [mkRat 1 2]) none [] =
          Except.error InitError.invalidLikelihood)
      ∧ (catboost_init none 1 none (some [mkRat 1 2]) none []).toOption.isSome = true := by
  refine ⟨?_, ?_, rfl⟩
  · intro hmem
    have h4 : lik = "quantile" ∨ lik = "poisson" ∨ lik = "gaussian" ∨
        lik = "RMSEWithUncertainty" := by
      simpa [available_likelihoods, likelihood_map] using hmem
    have hq : prepare_quantiles (some [mkRat 1 2]) = some [mkRat 1 2] := by
      rw [prepare_quantiles, if_pos]
      refine ⟨by simp, by simp, ?_⟩
      intro q hqm
      rw [List.mem_singleton] at hqm
      subst hqm
      exact ⟨by decide, by decide⟩
    rcases h4 with h | h | h | h <;> subst h <;>
      simp [catboost_init, hq, check_likelihood, available_likelihoods, likelihood_map,
        Except.toOption]
  · intro hmem
    have hc : check_likelihood lik = false := by
      rw [check_likelihood]
      exact decide_eq_false hmem
    simp [catboost_init, hc]

/-- CatBoostModel.fit, quantile branch (lines 231-251): the model container is
first emptied via self._model_container.clear() (modelled by starting the
fold from the empty container, so prior_container is discarded), then for
each declared quantile in order a regressor configured for that quantile is
built and trained (the opaque external training call, abstracted as train)
and stored in the container under the quantile key. -/
def fit_quantile {M : Type} (quantiles : List ℚ) (train : ℚ → M)
    (_prior_container : List (ℚ × M)) : List (ℚ × M) :=
  quantiles.foldl (fun c q => dictInsert q (train q) c) ([] : List (ℚ × M))

theorem foldl_dictInsert_fresh {M : Type} (train : ℚ → M) :
    ∀ (qs : List ℚ) (acc : List (ℚ × M)),
      (∀ q ∈ qs, dictLookup q acc = none) → qs.Nodup →
      qs.foldl (fun c q => dictInsert q (train q) c) acc =
        acc ++ qs.map (fun q => (q, train q))
  | [], acc, _, _ => by simp
  | q :: qs, acc, hfresh, hnd => by
    have hq : dictLookup q acc = none := hfresh q (List.mem_cons_self q qs)
    have step : dictInsert q (train q) acc = acc ++ [(q, train q)] :=
      dictInsert_of_lookup_none q (train q) acc hq
    have hnd' := List.nodup_cons.mp hnd
    have hfresh' : ∀ r ∈ qs, dictLookup r (acc ++ [(q, train q)]) = none := by
      intro r hr
      rw [dictLookup_append, hfresh r (List.mem_cons_of_mem q hr)]
      have hne : q ≠ r := fun he => hnd'.1 (he ▸ hr)
      simp [dictLookup, hne]
    rw [List.foldl_cons, step,
      foldl_dictInsert_fresh train qs (acc ++ [(q, train q)]) hfresh' hnd'.2]
    simp

/-- C2: in quantile mode, every fit call first clears the model container and
then, for each declared quantile in order, trains and stores exactly one
regressor under that quantile key: whatever the prior container held, the
resulting container is exactly one freshly trained entry per declared
quantile, in order, with no dependence on the prior fit's state. -/
theorem fit_quantile_resets_container {M : Type} (qs : List ℚ) (train : ℚ → M)
    (prior : List (ℚ × M)) (hnd : qs.Nodup) :
    fit_quantile qs train prior = qs.map (fun q => (q, train q)) := by
  rw [fit_quantile]
  exact foldl_dictInsert_fresh train qs [] (fun q _ => rfl) hnd

theorem fit_quantile_resets_container_witness :
    fit_quantile [mkRat 1 4, mkRat 1 2] (fun _ => (0 : Nat)) [(mkRat 1 2, 37)] =
      [mkRat 1 4, mkRat 1 2].map (fun q => (q, (0 : Nat))) :=
  fit_quantile_resets_container [mkRat 1 4, mkRat 1 2] (fun _ => 0) [(mkRat 1 2, 37)]
    (by decide)

/-- Modelled from the spec: RegressionModel._likelihood_generate_components_names
(regression_model.py, not under src/): one named output component per target
component and distribution-parameter name. -/
def likelihood_generate_components_names (components : List String)
    (params : List String) : List String :=
  components.flatMap (fun c => params.map (fun p => c ++ "_" ++ p))

/-- Modelled from the spec: RegressionModel._quantiles_generate_components_names
(regression_model.py, not under src/): one named output column per declared
quantile, per target component. -/
def quantiles_generate_components_names (components : List String)
    (quantiles : List ℚ) : List String :=
  likelihood_generate_components_names components
    (quantiles.map (fun q => "q" ++ toString q))

/-- CatBoostModel._likelihood_components_names (lines 285-298): quantile mode
delegates to the per-quantile naming, poisson passes the parameter-name list
["lamba"] (sic), gaussian (and its RMSEWithUncertainty alias) passes
["mu", "sigma"], and point mode returns None. -/
def likelihood_components_names (likelihood : Option String) (quantiles : List ℚ)
    (components : List String) : Option (List String) :=
  if likelihood = some "quantile" then
    some (quantiles_generate_components_names components quantiles)
  else if likelihood = some "poisson" then
    some (likelihood_generate_components_names components ["lamba"])
  else if likelihood = some "gaussian" ∨ likelihood = some "RMSEWithUncertainty" then
    some (likelihood_generate_components_names components ["mu", "sigma"])
  else none

/-- C4: evaluation of the likelihood component-name resolution on a
one-component series: quantile mode yields one named column per declared
quantile, gaussian yields mu and sigma, point mode yields none, but the
poisson branch produces the misspelled parameter name "lamba", not the
claimed "lambda". -/
theorem poisson_component_name_misspelled :
    likelihood_components_names (some "poisson") [] ["c0"] = some ["c0_lamba"]
      ∧ (["c0_lamba"] : List String) ≠ ["c0_lambda"]
      ∧ likelihood_components_names (some "gaussian") [] ["c0"] = some ["c0_mu", "c0_sigma"]
      ∧ likelihood_components_names none [] ["c0"] = none
      ∧ (likelihood_components_names (some "quantile") [mkRat 1 4, mkRat 1 2] ["c0"]).map
          List.length = some 2 :=
  ⟨rfl, by decide, rfl, rfl, rfl⟩

inductive ExportError
  | modelNotFitted
  | modelMissing
deriving DecidableEq

/-- Modelled from the spec: RegressionModel.check_export_onnx (not under src/):
exporting requires the trained regressor to exist already, and the call fails
with the model-not-fitted error when made before a successful fit. -/
def check_export_onnx (fitted : Bool) : Except ExportError Unit :=
  if fitted then Except.ok () else Except.error ExportError.modelNotFitted

/-- CatBoostModel.export_onnx (lines 319-338): first the pre-fit check, then
the model-existence assertion, then the model is saved; the produced file
path is modelled as the success value, so an error branch produces no file. -/
def export_onnx {M : Type} (fitted : Bool) (model : Option M)
    (path : Option String) (default_save_path : String) : Except ExportError String :=
  match check_export_onnx fitted with
  | Except.error e => Except.error e
  | Except.ok _ =>
      match model with
      | none => Except.error ExportError.modelMissing
      | some _ =>
          match path with
          | some p => Except.ok p
          | none => Except.ok (default_save_path ++ ".onnx")

/-- C8: calling the ONNX export before the model has been fitted fails with
the model-not-fitted error, producing no export file value, whatever the
stored model and path arguments are. -/
theorem export_onnx_before_fit {M : Type} (model : Option M) (path : Option String)
    (default_save_path : String) :
    export_onnx false model path default_save_path =
      Except.error ExportError.modelNotFitted := rfl

theorem likelihood_tags_validated_witness :
    (catboost_init none 1 (some "poisson") (some [mkRat 1 2]) none []).toOption.isSome = true
      ∧ catboost_init none 1 (some "foo") (some [mkRat 1 2]) none [] =
          Except.error InitError.invalidLikelihood :=
  ⟨(likelihood_tags_validated "poisson").1 (by decide),
   (likelihood_tags_validated "foo").2.1 (by decide)⟩

end DartsSpec
